import Mathlib

set_option autoImplicit false

namespace Invidtui

/-! Shallow embedding of the invidtui media-player core (package mediaplayer and
the player UI progress computation), verified against its specification.
Go machine integers are modelled as unbounded Int (no quantity here approaches
the 64-bit range), Go integer division as truncation toward zero, and Go maps
as association lists with zero-value lookup semantics. -/

/-- Go integer division: truncation toward zero, as performed by the / operator
on Go ints. -/
def goDiv (a b : Int) : Int := Int.tdiv a b

/-- Oracle for mpv property queries issued through the connection layer.
A result of none models a failed query (Get returned an error, e.g. because
the mpv process exited); some v models a successful, well-typed reply.
Boolean-valued and numeric-valued properties are queried through getBool and
getNum respectively. -/
structure PropOracle where
  getBool : String → Option Bool
  getNum : String → Option Int

/-- Oracle of a dead connection: every property query fails, as when Exited()
is true and Get returns the ConnectionClosed error. -/
def deadOracle : PropOracle :=
  { getBool := fun _ => none, getNum := fun _ => none }

/-- Volume, from MPV.Volume: queries the volume property and falls back
to -1 when the query fails. -/
def Volume (o : PropOracle) : Int :=
  match o.getNum "volume" with
  | none => -1
  | some vol => vol

/-- VolumeIncrease, from MPV.VolumeIncrease: returns the list of property
writes (Set calls) issued. A Volume() result of -1 short-circuits the call. -/
def VolumeIncrease (o : PropOracle) : List (String × Int) :=
  let vol := Volume o
  if vol = -1 then [] else [("volume", vol + 1)]

/-- VolumeDecrease, from MPV.VolumeDecrease: returns the list of property
writes (Set calls) issued. A Volume() result of -1 short-circuits the call. -/
def VolumeDecrease (o : PropOracle) : List (String × Int) :=
  let vol := Volume o
  if vol = -1 then [] else [("volume", vol - 1)]

/-- Paused, from MPV.Paused: the pause property, false on query failure. -/
def Paused (o : PropOracle) : Bool :=
  match o.getBool "pause" with
  | none => false
  | some b => b

/-- Muted, from MPV.Muted: the mute property, false on query failure. -/
def Muted (o : PropOracle) : Bool :=
  match o.getBool "mute" with
  | none => false
  | some b => b

/-- Shuffled, from MPV.Shuffled: the shuffle property, false on query
failure. -/
def Shuffled (o : PropOracle) : Bool :=
  match o.getBool "shuffle" with
  | none => false
  | some b => b

/-- Finished, from MPV.Finished: the eof-reached property, false on query
failure. -/
def Finished (o : PropOracle) : Bool :=
  match o.getBool "eof-reached" with
  | none => false
  | some b => b

/-- Buffering, from MPV.Buffering: the paused-for-cache property, true on
query failure. -/
def Buffering (o : PropOracle) : Bool :=
  match o.getBool "paused-for-cache" with
  | none => true
  | some b => b

/-- The play/pause/buffer/end-of-file glyph chosen by updateProgressAndInfo
from the paused, eof and buffering query results. -/
def playbackGlyph (paused eof buffering : Bool) : String :=
  if paused then
    if eof then "[]" else "||"
  else if buffering then "B" else ">"

/-- The mpv-side loop properties read and written by LoopMode and
ToggleLoopMode. The embedding assumes a live connection, so property reads
and writes all succeed. -/
structure LoopState where
  loopFile : String
  loopPlaylist : String
deriving DecidableEq

/-- A loop property value counts as active when it is yes or inf, as tested
by MPV.LoopMode. -/
def loopActive (v : String) : Bool := v == "yes" || v == "inf"

/-- LoopMode, from MPV.LoopMode: loop-file takes precedence over
loop-playlist; the empty string means looping is off. -/
def LoopMode (s : LoopState) : String :=
  if loopActive s.loopFile then "loop-file"
  else if loopActive s.loopPlaylist then "loop-playlist"
  else ""

/-- ToggleLoopMode, from MPV.ToggleLoopMode: a switch on LoopMode() issuing
the pair of Set calls of the matching case; the final branch is unreachable
because LoopMode only returns the three listed strings. -/
def ToggleLoopMode (s : LoopState) : LoopState :=
  if LoopMode s = "" then { loopFile := "yes", loopPlaylist := "no" }
  else if LoopMode s = "loop-file" then { loopFile := "no", loopPlaylist := "yes" }
  else if LoopMode s = "loop-playlist" then { loopFile := "no", loopPlaylist := "no" }
  else s

/-- The progress-bar fill width computed inside updateProgressAndInfo:
negative elapsed time is clamped to 0, a non-positive duration is replaced
by 1, elapsed time is capped at the duration, the character budget is half
the terminal width, and the fill is width * elapsed / duration in Go integer
arithmetic. -/
def progressFillLength (width timepos duration : Int) : Int :=
  let t0 := if timepos < 0 then 0 else timepos
  let d := if duration ≤ 0 then 1 else duration
  let t := if t0 > d then d else t0
  let w := goDiv width 2
  goDiv (w * t) d

/-- C8: when the volume property query fails, Volume() returns -1 and both
VolumeIncrease() and VolumeDecrease() issue no Set call at all. -/
theorem volume_query_failure_noop (o : PropOracle)
    (h : o.getNum "volume" = none) :
    Volume o = -1 ∧ VolumeIncrease o = [] ∧ VolumeDecrease o = [] := by
  have hv : Volume o = -1 := by simp [Volume, h]
  refine ⟨hv, ?_, ?_⟩ <;> simp [VolumeIncrease, VolumeDecrease, hv]

/-- C8 witness: the dead-connection oracle realizes the hypothesis. -/
theorem volume_query_failure_noop_witness :
    Volume deadOracle = -1 ∧
    VolumeIncrease deadOracle = [] ∧ VolumeDecrease deadOracle = [] :=
  volume_query_failure_noop deadOracle rfl

/-- C10: when every property query fails (dead connection), Buffering()
falls back to true while Paused(), Muted() and Shuffled() fall back to
false, so the progress line shows the buffering glyph B rather than the
playing glyph. -/
theorem buffering_fallback_true (o : PropOracle)
    (h : ∀ p, o.getBool p = none) :
    Buffering o = true ∧ Paused o = false ∧ Muted o = false ∧
    Shuffled o = false ∧
    playbackGlyph (Paused o) (Finished o) (Buffering o) = "B" := by
  simp [Buffering, Paused, Muted, Shuffled, Finished, playbackGlyph, h]

/-- C10 witness: the dead-connection oracle realizes the hypothesis. -/
theorem buffering_fallback_true_witness :
    Buffering deadOracle = true ∧ Paused deadOracle = false ∧
    Muted deadOracle = false ∧ Shuffled deadOracle = false ∧
    playbackGlyph (Paused deadOracle) (Finished deadOracle)
      (Buffering deadOracle) = "B" :=
  buffering_fallback_true deadOracle (fun _ => rfl)

/-- C3: ToggleLoopMode is a strict 3-cycle off, loop-file, loop-playlist,
back to off, and after any ToggleLoopMode step the loop-file and
loop-playlist properties are never simultaneously active. -/
theorem toggleLoopMode_three_cycle (s t : LoopState) (h : LoopMode s = "") :
    LoopMode (ToggleLoopMode s) = "loop-file" ∧
    LoopMode (ToggleLoopMode (ToggleLoopMode s)) = "loop-playlist" ∧
    LoopMode (ToggleLoopMode (ToggleLoopMode (ToggleLoopMode s))) = "" ∧
    ¬(loopActive (ToggleLoopMode t).loopFile = true ∧
      loopActive (ToggleLoopMode t).loopPlaylist = true) := by
  have hs : ToggleLoopMode s = { loopFile := "yes", loopPlaylist := "no" } := by
    simp [ToggleLoopMode, h]
  refine ⟨?_, ?_, ?_, ?_⟩
  · rw [hs]; decide
  · rw [hs]; decide
  · rw [hs]; decide
  · by_cases h1 : loopActive t.loopFile = true
    · have : ToggleLoopMode t = { loopFile := "no", loopPlaylist := "yes" } := by
        simp [ToggleLoopMode, LoopMode, h1]
      rw [this]; decide
    · by_cases h2 : loopActive t.loopPlaylist = true
      · have : ToggleLoopMode t = { loopFile := "no", loopPlaylist := "no" } := by
          simp [ToggleLoopMode, LoopMode, h1, h2]
        rw [this]; decide
      · have : ToggleLoopMode t = { loopFile := "yes", loopPlaylist := "no" } := by
          simp [ToggleLoopMode, LoopMode, h1, h2]
        rw [this]; decide

/-- C3 witness: the cycle and the exclusivity at the concrete off state. -/
theorem toggleLoopMode_three_cycle_witness :
    LoopMode (ToggleLoopMode { loopFile := "no", loopPlaylist := "no" }) = "loop-file" ∧
    LoopMode (ToggleLoopMode (ToggleLoopMode { loopFile := "no", loopPlaylist := "no" })) = "loop-playlist" ∧
    LoopMode (ToggleLoopMode (ToggleLoopMode (ToggleLoopMode { loopFile := "no", loopPlaylist := "no" }))) = "" ∧
    ¬(loopActive (ToggleLoopMode { loopFile := "no", loopPlaylist := "no" }).loopFile = true ∧
      loopActive (ToggleLoopMode { loopFile := "no", loopPlaylist := "no" }).loopPlaylist = true) :=
  toggleLoopMode_three_cycle
    { loopFile := "no", loopPlaylist := "no" }
    { loopFile := "no", loopPlaylist := "no" } (by decide)

/-- C4: for any width and positive duration, the progress fill is 0 at
elapsed 0, exactly the full bar width (half the terminal width) once elapsed
reaches or passes the duration, and negative elapsed behaves like 0. -/
theorem progressFillLength_clamps (W D e : Int) (hD : 0 < D) :
    progressFillLength W 0 D = 0 ∧
    (D ≤ e → progressFillLength W e D = goDiv W 2) ∧
    (e < 0 → progressFillLength W e D = 0) := by
  have hd : ¬ D ≤ 0 := by omega
  refine ⟨?_, ?_, ?_⟩
  · show goDiv (goDiv W 2 *
        (if (if (0:Int) < 0 then 0 else 0) > (if D ≤ 0 then 1 else D) then
          (if D ≤ 0 then 1 else D) else (if (0:Int) < 0 then 0 else 0)))
        (if D ≤ 0 then 1 else D) = 0
    have h0 : (if (0:Int) < 0 then (0:Int) else 0) = 0 := by simp
    rw [h0, if_neg hd, if_neg (by omega : ¬ (0:Int) > D)]
    simp [goDiv]
  · intro he
    have h1 : ¬ e < 0 := by omega
    show goDiv (goDiv W 2 *
        (if (if e < 0 then 0 else e) > (if D ≤ 0 then 1 else D) then
          (if D ≤ 0 then 1 else D) else (if e < 0 then 0 else e)))
        (if D ≤ 0 then 1 else D) = goDiv W 2
    rw [if_neg h1, if_neg hd]
    have h2 : (if e > D then D else e) = D := by
      by_cases h : e > D
      · simp [h]
      · simp [h]; omega
    rw [h2]
    simp only [goDiv]
    rw [Int.mul_tdiv_cancel _ (by omega : D ≠ 0)]
  · intro he
    show goDiv (goDiv W 2 *
        (if (if e < 0 then 0 else e) > (if D ≤ 0 then 1 else D) then
          (if D ≤ 0 then 1 else D) else (if e < 0 then 0 else e)))
        (if D ≤ 0 then 1 else D) = 0
    rw [if_pos he, if_neg hd, if_neg (by omega : ¬ (0:Int) > D)]
    simp [goDiv]

/-- C4 witness: the clamps at width 80, duration 100, elapsed 250 and -3. -/
theorem progressFillLength_clamps_witness :
    (progressFillLength 80 0 100 = 0 ∧
      (100 ≤ (250:Int) → progressFillLength 80 250 100 = goDiv 80 2) ∧
      ((250:Int) < 0 → progressFillLength 80 250 100 = 0)) ∧
    (progressFillLength 80 0 100 = 0 ∧
      (100 ≤ (-3:Int) → progressFillLength 80 (-3) 100 = goDiv 80 2) ∧
      ((-3:Int) < 0 → progressFillLength 80 (-3) 100 = 0)) :=
  ⟨progressFillLength_clamps 80 100 250 (by decide),
   progressFillLength_clamps 80 100 (-3) (by decide)⟩

/-- A Go channel with a fixed capacity and the queue of undelivered values.
Used for the event channels FileNumber, ErrorNumber, ErrorEvent and
DataEvent of the mediaplayer package. -/
structure Chan (α : Type) where
  capacity : Nat
  buffer : List α
deriving DecidableEq

/-- Non-blocking send, the select with a default branch used for the
error-event publication: the value is appended when the buffer has room and
dropped otherwise; the sender never blocks. -/
def chanTrySend {α : Type} (c : Chan α) (v : α) : Chan α :=
  if c.buffer.length < c.capacity then
    { c with buffer := c.buffer ++ [v] }
  else c

/-- Non-blocking receive, the select with a default branch used by
addToMonitor to claim an assigned slot id: none when no value is queued. -/
def chanTryRecv {α : Type} (c : Chan α) : Option (α × Chan α) :=
  match c.buffer with
  | [] => none
  | v :: rest => some (v, { c with buffer := rest })

/-- Plain (blocking) channel send, as written for the DataEvent dispatch in
eventListener: the value is appended when the buffer has room; none models
the sender blocking because the buffer is full, with nothing delivered. -/
def chanSend {α : Type} (c : Chan α) (v : α) : Option (Chan α) :=
  if c.buffer.length < c.capacity then
    some { c with buffer := c.buffer ++ [v] }
  else none

/-- The Track Monitor map from player-assigned slot ids to pending titles,
a Go map modelled as an association list without duplicate keys. -/
abbrev MonitorMap := List (Nat × String)

/-- Go map read m.monitor(id) before the zero-value default is applied. -/
def monitorLookup (m : MonitorMap) (id : Nat) : Option String :=
  match m.find? (fun e => e.1 == id) with
  | some e => some e.2
  | none => none

/-- Go map delete(m.monitor, id). -/
def monitorErase (m : MonitorMap) (id : Nat) : MonitorMap :=
  m.filter (fun e => !(e.1 == id))

/-- Go map assignment m.monitor(id) = title. -/
def monitorInsert (m : MonitorMap) (id : Nat) (title : String) : MonitorMap :=
  (id, title) :: monitorErase m id

/-- clearMonitor, from MPV.clearMonitor: the monitor map is replaced by a
freshly made empty map. -/
def clearMonitor (_ : MonitorMap) : MonitorMap := []

/-- One iteration of the startMonitor drain loop for an id received from the
ErrorNumber channel: reads the title under the mutex with Go zero-value
semantics (an absent key yields the empty string), deletes the key, then
best-effort publishes that title to the ErrorEvent channel. Returns the new
map and the new ErrorEvent channel. -/
def startMonitorStep (m : MonitorMap) (errEvent : Chan String) (id : Nat) :
    MonitorMap × Chan String :=
  let title := (monitorLookup m id).getD ""
  let m2 := monitorErase m id
  (m2, chanTrySend errEvent title)

/-- addToMonitor, from MPV.addToMonitor: a non-blocking attempt to claim one
assigned slot id from the FileNumber channel; on success the map records
id to title, otherwise nothing changes. Returns the new FileNumber channel
and the new map. -/
def addToMonitor (fileNumber : Chan Nat) (m : MonitorMap) (title : String) :
    Chan Nat × MonitorMap :=
  match chanTryRecv fileNumber with
  | some (id, rest) => (rest, monitorInsert m id title)
  | none => (fileNumber, m)

/-- One payload element of a playlist observe_property event: either a
per-entry property map (left abstract) or a non-map value, which the
eventListener leaves as the zero-value nil map. -/
inductive EventDatum (α : Type) where
  | propMap (entries : α)
  | other
deriving DecidableEq

/-- The pldata slice the eventListener builds from the event payload: one
element per payload element, property maps kept, anything else left nil. -/
def buildPlaylistData {α : Type} (data : List (EventDatum α)) :
    List (Option α) :=
  data.map (fun d =>
    match d with
    | EventDatum.propMap p => some p
    | EventDatum.other => none)

/-- The DataEvent dispatch step of the eventListener for a playlist-content
change: a plain channel send of the whole rebuilt playlist. -/
def dispatchPlaylistChange {α : Type} (c : Chan (List (Option α)))
    (data : List (EventDatum α)) : Option (Chan (List (Option α))) :=
  chanSend c (buildPlaylistData data)

/-- Modelled from the spec: the capacity of the playlist-changed (DataEvent)
queue; the channel construction itself is not among the sources, and the
spec fixes the capacity at 1. -/
def specDataEventCapacity : Nat := 1

/-- Modelled from the spec: the latest-wins send the spec ascribes to the
playlist-changed queue, replacing (not merging with) any prior undelivered
value, never blocking. Stated only to be compared with the plain send the
source performs. -/
def specLatestWinsSend {α : Type} (c : Chan α) (v : α) : Chan α :=
  { capacity := c.capacity, buffer := [v] }

/-- C5 counterexample: after clearMonitor empties the map, draining a
previously pending error id still publishes to the error-event channel (the
zero-value empty title), so the channel does not stay unchanged as the claim
states. -/
theorem clearMonitor_silent_counterexample :
    ¬ ((startMonitorStep (clearMonitor [(3, "song")]) (Chan.mk 1 []) 3).2 =
        Chan.mk 1 []) := by
  decide

/-- C5 amended: after clearMonitor, draining any error id leaves the map
empty and performs a best-effort publish of the zero-value empty title; no
previously recorded title is ever reported, but when the error-event channel
has room an empty-string notification is still sent. -/
theorem clearMonitor_error_publishes_zero_title (m : MonitorMap)
    (ch : Chan String) (id : Nat) :
    (startMonitorStep (clearMonitor m) ch id).1 = [] ∧
    (startMonitorStep (clearMonitor m) ch id).2.buffer =
      ch.buffer ++ (if ch.buffer.length < ch.capacity then [""] else []) ∧
    (∀ t, t ∈ (startMonitorStep (clearMonitor m) ch id).2.buffer →
      t ∈ ch.buffer ∨ t = "") := by
  refine ⟨rfl, ?_, ?_⟩
  · show (chanTrySend ch "").buffer = _
    by_cases h : ch.buffer.length < ch.capacity
    · simp [chanTrySend, h]
    · simp [chanTrySend, h]
  · intro t ht
    show t ∈ ch.buffer ∨ t = ""
    have : t ∈ (chanTrySend ch "").buffer := ht
    by_cases h : ch.buffer.length < ch.capacity
    · simp only [chanTrySend, if_pos h, List.mem_append, List.mem_singleton] at this
      exact this
    · simp only [chanTrySend, if_neg h] at this
      exact Or.inl this

/-- C7: when no assigned slot id is available, addToMonitor leaves both the
FileNumber channel and the monitor map unchanged, and a subsequently drained
error for any id only ever publishes a title previously recorded under that
exact id or the empty zero value; a title X that was never recorded is never
published. -/
theorem addToMonitor_no_slot_never_misattributed (cap : Nat) (m : MonitorMap)
    (X : String) (ch : Chan String) (id : Nat)
    (hX : ∀ e ∈ m, e.2 ≠ X) (hne : X ≠ "") :
    addToMonitor (Chan.mk cap []) m X = (Chan.mk cap [], m) ∧
    (∀ t, t ∈ (startMonitorStep m ch id).2.buffer → t ∉ ch.buffer →
      (monitorLookup m id = some t ∨ t = "") ∧ t ≠ X) := by
  refine ⟨rfl, ?_⟩
  intro t ht hnew
  have hmem : t ∈ (chanTrySend ch ((monitorLookup m id).getD "")).buffer := ht
  have hpub : t = (monitorLookup m id).getD "" := by
    by_cases h : ch.buffer.length < ch.capacity
    · simp only [chanTrySend, if_pos h, List.mem_append, List.mem_singleton] at hmem
      rcases hmem with h1 | h1
      · exact absurd h1 hnew
      · exact h1
    · simp only [chanTrySend, if_neg h] at hmem
      exact absurd hmem hnew
  cases hl : monitorLookup m id with
  | none =>
    rw [hl] at hpub
    simp only [Option.getD_none] at hpub
    exact ⟨Or.inr hpub, hpub ▸ hne.symm⟩
  | some v =>
    rw [hl] at hpub
    simp only [Option.getD_some] at hpub
    have hv : ∃ e, m.find? (fun e => e.1 == id) = some e ∧ e.2 = v := by
      unfold monitorLookup at hl
      cases hf : m.find? (fun e => e.1 == id) with
      | none => rw [hf] at hl; exact absurd hl (by simp)
      | some e => rw [hf] at hl; exact ⟨e, rfl, by simpa using hl⟩
    rcases hv with ⟨e, hf, he⟩
    have hem : e ∈ m := List.mem_of_find?_eq_some hf
    have hvne : v ≠ X := he ▸ hX e hem
    constructor
    · rw [hpub]
      exact Or.inl rfl
    · rw [hpub]
      exact hvne

/-- C7 witness: a concrete monitor holding one other title, a full slot
drought, and an error for that slot. -/
theorem addToMonitor_no_slot_never_misattributed_witness :
    addToMonitor (Chan.mk 5 []) [(2, "other")] "X" =
      (Chan.mk 5 [], [(2, "other")]) ∧
    (∀ t, t ∈ (startMonitorStep [(2, "other")] (Chan.mk 1 []) 2).2.buffer →
      t ∉ (Chan.mk 1 [] : Chan String).buffer →
      (monitorLookup [(2, "other")] 2 = some t ∨ t = "") ∧ t ≠ "X") :=
  addToMonitor_no_slot_never_misattributed 5 [(2, "other")] "X"
    (Chan.mk 1 []) 2 (by decide) (by decide)

/-- C6 counterexample: with the spec-modelled capacity-1 playlist-changed
queue already holding an undelivered value, the source's plain send blocks
(delivers nothing) instead of performing the non-blocking latest-wins
replacement the claim states. -/
theorem playlistChanged_dispatch_counterexample :
    dispatchPlaylistChange
      (Chan.mk specDataEventCapacity [[some 0]] : Chan (List (Option Nat)))
      [EventDatum.propMap 1] = none ∧
    ¬ (dispatchPlaylistChange
        (Chan.mk specDataEventCapacity [[some 0]] : Chan (List (Option Nat)))
        [EventDatum.propMap 1] =
      some (specLatestWinsSend
        (Chan.mk specDataEventCapacity [[some 0]] : Chan (List (Option Nat)))
        (buildPlaylistData [EventDatum.propMap 1]))) := by
  decide

/-- C6 amended: a playlist-content change is dispatched whole (one element
per payload entry, in one enqueued value) to the playlist-changed queue by a
plain channel send: when the queue has room the value is appended after any
prior undelivered value, and when the queue is full the event listener
blocks, so the dispatch is neither replacing nor non-blocking. -/
theorem playlistChanged_dispatch_amended {α : Type}
    (c : Chan (List (Option α))) (data : List (EventDatum α))
    (h : c.buffer.length < c.capacity) :
    (∃ d, dispatchPlaylistChange c data = some d ∧
      d.buffer = c.buffer ++ [buildPlaylistData data] ∧
      (buildPlaylistData data).length = data.length) ∧
    (∀ cFull : Chan (List (Option α)), ¬ cFull.buffer.length < cFull.capacity →
      dispatchPlaylistChange cFull data = none) := by
  constructor
  · refine ⟨{ c with buffer := c.buffer ++ [buildPlaylistData data] }, ?_, rfl, ?_⟩
    · simp [dispatchPlaylistChange, chanSend, h]
    · simp [buildPlaylistData]
  · intro cFull hFull
    simp [dispatchPlaylistChange, chanSend, hFull]

/-- C6 amended witness: dispatch of a two-element payload into an empty
capacity-1 queue. -/
theorem playlistChanged_dispatch_amended_witness :
    (∃ d, dispatchPlaylistChange (Chan.mk 1 [] : Chan (List (Option Nat)))
        [EventDatum.propMap 7, EventDatum.other] = some d ∧
      d.buffer = (Chan.mk 1 [] : Chan (List (Option Nat))).buffer ++
        [buildPlaylistData [EventDatum.propMap 7, EventDatum.other]] ∧
      (buildPlaylistData
        [EventDatum.propMap (7:Nat), EventDatum.other]).length =
        [EventDatum.propMap (7:Nat), EventDatum.other].length) ∧
    (∀ cFull : Chan (List (Option Nat)), ¬ cFull.buffer.length < cFull.capacity →
      dispatchPlaylistChange cFull [EventDatum.propMap 7, EventDatum.other] =
        none) :=
  playlistChanged_dispatch_amended (Chan.mk 1 [])
    [EventDatum.propMap 7, EventDatum.other] (by decide)

/-- Byte length of one character in UTF-8, as Go len() counts bytes of a
string. -/
def charUtf8Len (c : Char) : Nat :=
  if c.toNat < 128 then 1
  else if c.toNat < 2048 then 2
  else if c.toNat < 65536 then 3
  else 4

/-- Go len(s) on a string: the byte length of its UTF-8 encoding. -/
def goLen (s : String) : Nat :=
  s.data.foldr (fun c n => charUtf8Len c + n) 0

/-- The UTF-8 encoding of one character, as byte values. -/
def charUtf8Bytes (c : Char) : List Nat :=
  let n := c.toNat
  if n < 128 then [n]
  else if n < 2048 then [192 + n / 64, 128 + n % 64]
  else if n < 65536 then [224 + n / 4096, 128 + n / 64 % 64, 128 + n % 64]
  else [240 + n / 262144, 128 + n / 4096 % 64, 128 + n / 64 % 64, 128 + n % 64]

/-- The UTF-8 bytes of a string, the byte view Go string functions see. -/
def stringUtf8Bytes (s : String) : List Nat :=
  s.data.foldr (fun c bs => charUtf8Bytes c ++ bs) []

/-- Uppercase hexadecimal digit, as used by the Go percent-encoder. -/
def upperHexDigit (n : Nat) : Char :=
  if n < 10 then Char.ofNat (48 + n) else Char.ofNat (55 + n)

/-- The bytes url.QueryEscape keeps unescaped: ASCII letters, digits and
the marks minus, period, underscore, tilde. -/
def unreservedByte (n : Nat) : Bool :=
  (decide (65 ≤ n) && decide (n ≤ 90)) ||
  (decide (97 ≤ n) && decide (n ≤ 122)) ||
  (decide (48 ≤ n) && decide (n ≤ 57)) ||
  n == 45 || n == 46 || n == 95 || n == 126

/-- url.QueryEscape from Go net/url, applied by LoadFile to the options
string: unreserved bytes pass through, a space becomes a plus, every other
byte is percent-encoded with uppercase hex. -/
def queryEscape (s : String) : String :=
  String.mk ((stringUtf8Bytes s).foldr (fun b acc =>
    if unreservedByte b then Char.ofNat b :: acc
    else if b == 32 then '+' :: acc
    else '%' :: upperHexDigit (b / 16) :: upperHexDigit (b % 16) :: acc) [])

/-- Character-list test that pat occurs at the start, the core of Go
strings.HasPrefix. -/
def charsLeadWith : List Char → List Char → Bool
  | [], _ => true
  | _ :: _, [] => false
  | p :: ps, c :: cs => p == c && charsLeadWith ps cs

/-- Go strings.HasPrefix(s, pat). -/
def strLeadsWith (s pat : String) : Bool := charsLeadWith pat.data s.data

/-- Character-list substring occurrence test. -/
def charsContain : List Char → List Char → Bool
  | [], pat => charsLeadWith pat []
  | c :: cs, pat => charsLeadWith pat (c :: cs) || charsContain cs pat

/-- Go strings.Contains(s, pat). -/
def containsSubstr (s pat : String) : Bool := charsContain s.data pat.data

/-- One loadfile command issued to mpv: the target URI, the append-play
mode argument and the options string. -/
structure LoadfileCall where
  uri : String
  mode : String
  options : String
deriving DecidableEq

/-- LoadFile, from MPV.LoadFile: builds the options string (forced media
title from the byte length of the title, optional declared length, optional
video suppression, optional attached audio file when exactly two files are
given), appends the escaped options to files(0) and issues one loadfile
call. none models the index-out-of-range panic of files(0) on an empty
files slice. -/
def LoadFile (title : String) (duration : Int) (audio : Bool)
    (files : List String) : Option LoadfileCall :=
  let options := "force-media-title=%" ++ toString (goLen title) ++ "%" ++ title
  let options :=
    if duration > 0 then options ++ ",length=" ++ toString duration else options
  let options := if audio then options ++ ",vid=no" else options
  let options :=
    if files.length == 2 then
      match files[1]? with
      | some audioFile => options ++ ",audio-file=" ++ audioFile
      | none => options
    else options
  match files[0]? with
  | none => none
  | some first =>
    some { uri := first ++ "&options=" ++ queryEscape options,
           mode := "append-play", options := options }

/-- C9: LoadFile with at least one file indexes only valid positions and
issues its loadfile call, while LoadFile with zero files hits the
out-of-range access of files(0); the safe precondition is a non-empty files
list. -/
theorem loadFile_index_safety (title : String) (duration : Int) (audio : Bool)
    (files : List String) (h : 1 ≤ files.length) :
    (LoadFile title duration audio files).isSome = true ∧
    (∀ t : String, ∀ d : Int, ∀ a : Bool,
      LoadFile t d a [] = none) := by
  constructor
  · match files, h with
    | f :: fs, _ => simp [LoadFile]
  · intro t d a
    rfl

/-- C9 witness: one file is enough; the empty slice panics. -/
theorem loadFile_index_safety_witness :
    (LoadFile "t" 0 false ["https://h/w"]).isSome = true ∧
    (∀ t : String, ∀ d : Int, ∀ a : Bool, LoadFile t d a [] = none) :=
  loadFile_index_safety "t" 0 false ["https://h/w"] (by decide)

/-- The data LoadPlaylist reads from one playlist line once it parses as a
well-formed URI: the host-rewritten rendered line, and the recognized query
parameters title, options, length and mediatype, each the empty string when
absent, as returned by Go url.Values.Get. -/
structure ParsedURI where
  render : String
  title : String
  options : String
  length : String
  mediatype : String
deriving DecidableEq

/-- The collaborators of LoadPlaylist. parseURL and replaceOptions are
modelled from the spec: utils.IsValidURL, the utils.GetHostname host
rewrite, net/url query extraction and the option re-escaping helper are
outside the given sources, so they are abstracted as oracles (parseURL
returns none exactly when the line fails URI parsing). renewLiveURL is the
caller-supplied renewal callback. loadfileOK is the transport verdict of a
loadfile call for the given line and options. -/
structure PlaylistEnv where
  parseURL : String → Option ParsedURI
  replaceOptions : String → String
  renewLiveURL : String → Bool → Bool
  loadfileOK : String → String → Bool

/-- The force-media-title directive synthesized from the parsed title, with
the Go byte length of the title. -/
def forceTitleDirective (title : String) : String :=
  ",force-media-title=%" ++ toString (goLen title) ++ "%" ++ title

/-- One iteration of the LoadPlaylist scan for a single line: none when the
line is skipped (comment, blank, URI parse failure, or a renewed live
entry), and otherwise the rendered line, final options and parsed title of
the loadfile call the line produces. -/
def processLine (env : PlaylistEnv) (line : String) :
    Option (String × String × String) :=
  if strLeadsWith line "#" || line == "" then none
  else
    match env.parseURL line with
    | none => none
    | some u =>
      let title := u.title
      let options := if u.options == "" then "" else env.replaceOptions u.options
      if u.length == "Live" &&
          env.renewLiveURL u.render (u.mediatype == "Audio") then none
      else
        let options :=
          if !(containsSubstr options "force-media-title") then
            options ++ forceTitleDirective title
          else options
        some (u.render, options, title)

/-- The errors LoadPlaylist can return: OpenFailed when the file cannot be
opened, the first loadfile error when a load call fails, EmptyPlaylist when
zero entries were added. -/
inductive PlaylistError where
  | openFailed
  | loadFailed (uri : String)
  | emptyPlaylist
deriving DecidableEq

/-- What a LoadPlaylist run did: the loadfile calls issued as pairs of line
and options (the playlist-clear calls of the replace branch are not load
calls and are not recorded here), the titles registered with the Track
Monitor through addToMonitor, the filesAdded counter, and the error
returned. -/
structure PlaylistOutcome where
  calls : List (String × String)
  monitored : List String
  filesAdded : Nat
  err : Option PlaylistError
deriving DecidableEq

/-- The line scan loop of LoadPlaylist: skipped lines contribute nothing, a
line whose loadfile call succeeds is recorded (call, monitor registration,
filesAdded increment), and a failing loadfile call aborts the scan
immediately, returning that error. -/
def loadPlaylistLines (env : PlaylistEnv) : List String → PlaylistOutcome
  | [] => { calls := [], monitored := [], filesAdded := 0, err := none }
  | line :: rest =>
    match processLine env line with
    | none => loadPlaylistLines env rest
    | some (uri, opts, title) =>
      if env.loadfileOK uri opts then
        let r := loadPlaylistLines env rest
        { calls := (uri, opts) :: r.calls,
          monitored := title :: r.monitored,
          filesAdded := r.filesAdded + 1,
          err := r.err }
      else
        { calls := [(uri, opts)], monitored := [], filesAdded := 0,
          err := some (PlaylistError.loadFailed uri) }

/-- The post-scan error handling at the end of LoadPlaylist: a scan abort
propagates the load error, and a completed scan that added zero files
yields EmptyPlaylist. -/
def finishScan (r : PlaylistOutcome) : PlaylistOutcome :=
  match r.err with
  | some e => { r with err := some e }
  | none =>
    if r.filesAdded = 0 then
      { r with err := some PlaylistError.emptyPlaylist }
    else r

/-- LoadPlaylist, from MPV.LoadPlaylist: on the replace path the queue and
Track Monitor are first cleared (clearMonitor above; those control calls
are not loadfile calls); an unopenable file yields OpenFailed; otherwise
the lines are scanned and the scan outcome is finished as in finishScan. -/
def LoadPlaylist (env : PlaylistEnv) (_replace : Bool)
    (file : Option (List String)) : PlaylistOutcome :=
  match file with
  | none =>
    { calls := [], monitored := [], filesAdded := 0,
      err := some PlaylistError.openFailed }
  | some lines => finishScan (loadPlaylistLines env lines)

theorem finishScan_calls (r : PlaylistOutcome) :
    (finishScan r).calls = r.calls := by
  unfold finishScan
  cases h : r.err with
  | some e => rfl
  | none =>
    by_cases hz : r.filesAdded = 0
    · rw [if_pos hz]
    · rw [if_neg hz]

theorem finishScan_monitored (r : PlaylistOutcome) :
    (finishScan r).monitored = r.monitored := by
  unfold finishScan
  cases h : r.err with
  | some e => rfl
  | none =>
    by_cases hz : r.filesAdded = 0
    · rw [if_pos hz]
    · rw [if_neg hz]

/-- A playlist line the scanner does not skip outright: neither a comment
nor blank. -/
def relevantLine (line : String) : Bool :=
  !(strLeadsWith line "#" || line == "")

/-- The loadfile call a processed line produces (junk on skipped lines,
which the theorems exclude). -/
def entryCall (env : PlaylistEnv) (line : String) : String × String :=
  match processLine env line with
  | some (uri, opts, _) => (uri, opts)
  | none => ("", "")

/-- The title a processed line registers with the Track Monitor (junk on
skipped lines, which the theorems exclude). -/
def entryTitle (env : PlaylistEnv) (line : String) : String :=
  match processLine env line with
  | some (_, _, title) => title
  | none => ""

theorem processLine_none_of_irrelevant (env : PlaylistEnv) (line : String)
    (h : relevantLine line = false) : processLine env line = none := by
  have hb : (strLeadsWith line "#" || line == "") = true := by
    rcases Bool.eq_false_or_eq_true (strLeadsWith line "#" || line == "") with
      hc | hc
    · exact hc
    · exfalso
      unfold relevantLine at h
      rw [hc] at h
      simp at h
  unfold processLine
  rw [if_pos hb]

theorem processLine_isSome (env : PlaylistEnv) (line : String)
    (hrel : relevantLine line = true)
    (hu : (env.parseURL line).isSome)
    (hlive : ∀ u, env.parseURL line = some u →
      ¬(u.length = "Live" ∧
        env.renewLiveURL u.render (u.mediatype == "Audio") = true)) :
    (processLine env line).isSome := by
  unfold relevantLine at hrel
  unfold processLine
  rw [if_neg (by simpa using hrel)]
  cases hp : env.parseURL line with
  | none => rw [hp] at hu; simp at hu
  | some u =>
    have hl := hlive u hp
    have hcond : (u.length == "Live" &&
        env.renewLiveURL u.render (u.mediatype == "Audio")) = false := by
      rw [Bool.and_eq_false_iff]
      by_cases hL : u.length = "Live"
      · right
        by_cases hR :
            env.renewLiveURL u.render (u.mediatype == "Audio") = true
        · exact absurd ⟨hL, hR⟩ hl
        · simpa using hR
      · left
        simpa using hL
    simp [hcond]

theorem loadPlaylistLines_all_ok (env : PlaylistEnv) (lines : List String)
    (hok : ∀ uri opts, env.loadfileOK uri opts = true) :
    loadPlaylistLines env lines =
      { calls := lines.filterMap
          (fun l => (processLine env l).map (fun e => (e.1, e.2.1))),
        monitored := lines.filterMap
          (fun l => (processLine env l).map (fun e => e.2.2)),
        filesAdded := (lines.filterMap (fun l => processLine env l)).length,
        err := none } := by
  induction lines with
  | nil => rfl
  | cons line rest ih =>
    unfold loadPlaylistLines
    cases hp : processLine env line with
    | none => simp [hp, ih]
    | some e =>
      obtain ⟨uri, opts, title⟩ := e
      simp [hok, hp, ih]

theorem filterMap_eq_map_filter {β γ : Type} (f : β → Option γ) (p : β → Bool)
    (g : β → γ) (l : List β)
    (h : ∀ x ∈ l, (p x = false → f x = none) ∧ (p x = true → f x = some (g x))) :
    l.filterMap f = (l.filter p).map g := by
  induction l with
  | nil => rfl
  | cons x xs ih =>
    have hx := h x (List.mem_cons_self x xs)
    have hxs := fun y hy => h y (List.mem_cons_of_mem x hy)
    cases hpx : p x with
    | false =>
      rw [List.filterMap_cons, hx.1 hpx, List.filter_cons, hpx]
      exact ih hxs
    | true =>
      rw [List.filterMap_cons, hx.2 hpx, List.filter_cons, hpx]
      simpa using ih hxs

theorem loadPlaylistLines_all_none (env : PlaylistEnv) :
    ∀ lines : List String, (∀ l ∈ lines, processLine env l = none) →
    loadPlaylistLines env lines =
      { calls := [], monitored := [], filesAdded := 0, err := none } := by
  intro lines
  induction lines with
  | nil => intro _; rfl
  | cons line rest ih =>
    intro hnone
    unfold loadPlaylistLines
    rw [hnone line (List.mem_cons_self line rest)]
    exact ih (fun y hy => hnone y (List.mem_cons_of_mem line hy))

/-- C1: for a playlist file whose non-comment, non-blank lines all parse as
URIs and none of which is a renewed live entry, and a transport accepting
every load call, LoadPlaylist issues exactly one loadfile call per such
line, in file order, and registers the parsed title of each with the Track
Monitor, in the same order. -/
theorem loadPlaylist_one_call_per_line (env : PlaylistEnv)
    (lines : List String)
    (hok : ∀ uri opts, env.loadfileOK uri opts = true)
    (hparse : ∀ l ∈ lines, relevantLine l = true → (env.parseURL l).isSome)
    (hlive : ∀ l ∈ lines, relevantLine l = true → ∀ u, env.parseURL l = some u →
      ¬(u.length = "Live" ∧
        env.renewLiveURL u.render (u.mediatype == "Audio") = true)) :
    (LoadPlaylist env true (some lines)).calls =
      (lines.filter relevantLine).map (entryCall env) ∧
    (LoadPlaylist env true (some lines)).monitored =
      (lines.filter relevantLine).map (entryTitle env) := by
  have hproc : ∀ l ∈ lines, relevantLine l = true →
      (processLine env l).isSome :=
    fun l hl hr => processLine_isSome env l hr (hparse l hl hr) (hlive l hl hr)
  have hcalls : lines.filterMap
        (fun l => (processLine env l).map (fun e => (e.1, e.2.1))) =
      (lines.filter relevantLine).map (entryCall env) := by
    apply filterMap_eq_map_filter
    intro x hx
    constructor
    · intro hr
      rw [processLine_none_of_irrelevant env x hr]
      rfl
    · intro hr
      have := hproc x hx hr
      cases hp : processLine env x with
      | none => rw [hp] at this; simp at this
      | some e => simp [entryCall, hp]
  have hmons : lines.filterMap
        (fun l => (processLine env l).map (fun e => e.2.2)) =
      (lines.filter relevantLine).map (entryTitle env) := by
    apply filterMap_eq_map_filter
    intro x hx
    constructor
    · intro hr
      rw [processLine_none_of_irrelevant env x hr]
      rfl
    · intro hr
      have := hproc x hx hr
      cases hp : processLine env x with
      | none => rw [hp] at this; simp at this
      | some e => simp [entryTitle, hp]
  have hrun := loadPlaylistLines_all_ok env lines hok
  have hL : LoadPlaylist env true (some lines) =
      finishScan (loadPlaylistLines env lines) := rfl
  rw [hL, finishScan_calls, finishScan_monitored, hrun]
  exact ⟨hcalls, hmons⟩

/-- Sample playlist collaborators for the witnesses: every line parses to a
URI whose query carries a fixed title and no live marker, options pass
through unchanged, nothing is ever renewed, and every load call succeeds. -/
def sampleEnv : PlaylistEnv :=
  { parseURL := fun l =>
      some { render := l, title := "T", options := "", length := "",
             mediatype := "" },
    replaceOptions := fun o => o,
    renewLiveURL := fun _ _ => false,
    loadfileOK := fun _ _ => true }

/-- C1 witness: a playlist with one comment, one blank line and two entry
lines. -/
theorem loadPlaylist_one_call_per_line_witness :
    (LoadPlaylist sampleEnv true
        (some ["# a comment", "", "https://h/w?v=1", "https://h/w?v=2"])).calls =
      (["# a comment", "", "https://h/w?v=1", "https://h/w?v=2"].filter
        relevantLine).map (entryCall sampleEnv) ∧
    (LoadPlaylist sampleEnv true
        (some ["# a comment", "", "https://h/w?v=1", "https://h/w?v=2"])).monitored =
      (["# a comment", "", "https://h/w?v=1", "https://h/w?v=2"].filter
        relevantLine).map (entryTitle sampleEnv) :=
  loadPlaylist_one_call_per_line sampleEnv
    ["# a comment", "", "https://h/w?v=1", "https://h/w?v=2"]
    (fun _ _ => rfl)
    (fun _ _ _ => rfl)
    (by
      intro l hl hr u hu
      have h2 := Option.some.inj hu
      rw [← h2]
      simp)

/-- C2: a playlist file in which every line is a comment, blank, fails URI
parsing, or is skipped as a renewed live entry makes LoadPlaylist return
EmptyPlaylist with zero loadfile calls issued. -/
theorem loadPlaylist_empty_error (env : PlaylistEnv) (lines : List String)
    (hall : ∀ l ∈ lines, strLeadsWith l "#" = true ∨ l = "" ∨
      env.parseURL l = none ∨
      ∃ u, env.parseURL l = some u ∧ u.length = "Live" ∧
        env.renewLiveURL u.render (u.mediatype == "Audio") = true) :
    (LoadPlaylist env true (some lines)).err =
      some PlaylistError.emptyPlaylist ∧
    (LoadPlaylist env true (some lines)).calls = [] := by
  have hnone : ∀ l ∈ lines, processLine env l = none := by
    intro l hl
    rcases hall l hl with h | h | h | ⟨u, hu, hL, hR⟩
    · unfold processLine
      rw [if_pos (by simp [h])]
    · unfold processLine
      rw [if_pos (by simp [h])]
    · unfold processLine
      by_cases hc : (strLeadsWith l "#" || l == "") = true
      · rw [if_pos hc]
      · rw [if_neg hc, h]
    · unfold processLine
      by_cases hc : (strLeadsWith l "#" || l == "") = true
      · rw [if_pos hc]
      · rw [if_neg hc, hu]
        have hLR : (u.length == "Live" &&
            env.renewLiveURL u.render (u.mediatype == "Audio")) = true := by
          rw [Bool.and_eq_true]
          exact ⟨by simpa using hL, hR⟩
        simp [hLR]
  have hscan := loadPlaylistLines_all_none env lines hnone
  have hE : LoadPlaylist env true (some lines) =
      finishScan (loadPlaylistLines env lines) := rfl
  rw [hE, hscan]
  exact ⟨rfl, rfl⟩

/-- C2 witness: a playlist of one comment and one blank line. -/
theorem loadPlaylist_empty_error_witness :
    (LoadPlaylist sampleEnv true (some ["# only a comment", ""])).err =
      some PlaylistError.emptyPlaylist ∧
    (LoadPlaylist sampleEnv true (some ["# only a comment", ""])).calls = [] :=
  loadPlaylist_empty_error sampleEnv ["# only a comment", ""]
    (by
      intro l hl
      simp only [List.mem_cons, List.mem_singleton] at hl
      rcases hl with rfl | rfl | h
      · left; decide
      · right; left; rfl
      · cases h)

end Invidtui
